import Mathlib

/-!
Verification of the asynchronous note-processing pipeline of a note-taking
service (FastAPI + Redis/RQ).  The development shallowly embeds the core of
the repository:

* `app/models.py`            — `UserRole`, `NoteStatus`, `User`, `Note`
* `app/notes/repository.py`  — `NoteRepository` (create / get / list / update)
* `app/notes/service.py`     — `NoteService` (create with enqueue-failure
  handling, role-scoped reads, listing)
* `app/notes/tasks.py`       — the worker `summarize_note_task` and the
  deterministic fallback branch of `generate_t5_summary`
* `app/common/pagination.py` — `PaginationParams`, `PaginatedResponse`
* `app/common/filtering.py`  — `NoteFilters`, `apply_note_filters`

The Entity Store is modelled as a `List Note` (rows, primary key `id`);
SQLAlchemy's `first()` becomes `List.find?`, and mutating a loaded ORM row
followed by `commit()` becomes replacing the first matching row.  The
`updated_at` column (DB-managed `onupdate` timestamp) is not modelled: no
claim under verification concerns it.  Timestamps are `Nat`.

External faults are explicit parameters: the outcome of the RQ `enqueue`
call (`QueueOutcome`), whether an Entity-Store status-update write raises,
and whether the worker's final commit raises.
-/

set_option autoImplicit false

namespace NoteApp

/-- app/models.py `UserRole`: ADMIN sees all notes, AGENT only its own. -/
inductive UserRole
  | ADMIN
  | AGENT
deriving DecidableEq

/-- app/models.py `NoteStatus`: the note-processing lifecycle states. -/
inductive NoteStatus
  | queued
  | processing
  | done
  | failed
deriving DecidableEq

/-- app/models.py `User` (only the fields the note pipeline reads). -/
structure User where
  id : Nat
  role : UserRole
deriving DecidableEq

/-- app/models.py `Note`.  `summary` and `job_id` are nullable columns;
`updated_at` is not modelled (see module header). -/
structure Note where
  id : Nat
  raw_text : String
  summary : Option String
  status : NoteStatus
  job_id : Option String
  owner_id : Nat
  created_at : Nat
deriving DecidableEq

/-- Python truthiness of an `Optional[str]`: `None` and `""` are falsy.
Used by `update_note_status` (`if summary:` / `if job_id:`) and by
`apply_note_filters` (`if filters.search:`). -/
def pyTruthy : Option String → Bool
  | some s => !s.isEmpty
  | none => false

/-- Replace the first row whose id matches: models mutating the ORM object
returned by `.first()` and committing. -/
def replaceFirst (nid : Nat) (x : Note) : List Note → List Note
  | [] => []
  | n :: ns => if n.id == nid then x :: ns else n :: replaceFirst nid x ns

/-- Fresh primary key for an insert (strictly larger than every id in the
table). -/
def nextId (db : List Note) : Nat :=
  db.foldr (fun n m => max n.id m) 0 + 1

/-- Case-insensitive substring test over strings: models SQL
`ILIKE '%term%'` with the term already lowercased
(`filtering.py` line 81; SQL wildcard characters inside the user-supplied
term are not modelled). -/
def ci_contains (hay pat : String) : Bool :=
  decide ((pat.toList.map Char.toLower) <:+: (hay.toList.map Char.toLower))

/-- app/common/filtering.py `NoteFilters` (dates as `Nat`). -/
structure NoteFilters where
  search : Option String
  status : Option NoteStatus
  created_after : Option Nat
  created_before : Option Nat
deriving DecidableEq

/-- app/common/filtering.py `apply_note_filters`, as a row predicate: text
search over `raw_text` OR `summary` (an SQL-NULL summary never matches),
exact status, and a closed created-at range. -/
def apply_note_filters (f : NoteFilters) (n : Note) : Bool :=
  (if pyTruthy f.search then
      ci_contains n.raw_text (f.search.getD "") ||
        (match n.summary with
         | some s => ci_contains s (f.search.getD "")
         | none => false)
    else true)
  && (match f.status with
      | some st => n.status == st
      | none => true)
  && (match f.created_after with
      | some a => decide (a ≤ n.created_at)
      | none => true)
  && (match f.created_before with
      | some b => decide (n.created_at ≤ b)
      | none => true)

/-- app/common/pagination.py `PaginationParams` (fields as Python ints). -/
structure PaginationParams where
  page : Int
  size : Int
deriving DecidableEq

/-- The pydantic field validation of `PaginationParams`:
`page : ge=1`, `size : ge=1, le=100`; construction fails otherwise. -/
def PaginationParams.validate (page size : Int) : Option PaginationParams :=
  if 1 ≤ page ∧ 1 ≤ size ∧ size ≤ 100 then some ⟨page, size⟩ else none

/-- `PaginationParams.offset`: `(page - 1) * size`. -/
def PaginationParams.offset (p : PaginationParams) : Int :=
  (p.page - 1) * p.size

/-- app/common/pagination.py `PaginatedResponse` (items specialised to
notes). -/
structure PaginatedResponse where
  items : List Note
  total : Nat
  page : Int
  size : Int
  pages : Int
deriving DecidableEq

/-- app/common/pagination.py `create_paginated_response`:
`pages = (total + size - 1) // size` (ceiling division). -/
def create_paginated_response (items : List Note) (total : Nat)
    (p : PaginationParams) : PaginatedResponse :=
  { items := items, total := total, page := p.page, size := p.size,
    pages := ((total : Int) + p.size - 1) / p.size }

/-- Insert a note into a list kept in descending `created_at` order. -/
def insertByCreatedDesc (n : Note) : List Note → List Note
  | [] => [n]
  | m :: ms =>
    if m.created_at ≤ n.created_at then n :: m :: ms
    else m :: insertByCreatedDesc n ms

/-- `ORDER BY created_at DESC` (repository.py line 99), as an insertion
sort. -/
def orderByCreatedDesc (l : List Note) : List Note :=
  l.foldr insertByCreatedDesc []

/-- tasks.py `generate_t5_summary`, the deterministic fallback branch taken
when the T5 model is unavailable (lines 82 and 117): plain truncation,
`"Summary: " + text[:100] + "..."` for text over 100 characters, the text
itself otherwise.  The T5-generation branch calls an external ML model and
is outside the embedding.  Note: the worker contains no keyword-based
content classification. -/
def generate_t5_summary_fallback (text : String) : String :=
  if text.length > 100 then "Summary: " ++ text.take 100 ++ "..." else text

namespace NoteRepository

/-- repository.py `create_note`: insert a fresh row with status `queued`,
`summary = NULL`, `job_id = NULL`, `created_at = now`.  The new row is
prepended (row order in the table model is irrelevant: reads search by id
or sort). -/
def create_note (raw_text : String) (owner_id : Nat) (now : Nat)
    (db : List Note) : Note × List Note :=
  let note : Note :=
    { id := nextId db, raw_text := raw_text, summary := none,
      status := NoteStatus.queued, job_id := none, owner_id := owner_id,
      created_at := now }
  (note, note :: db)

/-- repository.py `get_note_by_id`: select by id; for an AGENT the query is
additionally scoped to `owner_id == user.id`; ADMIN is unscoped. -/
def get_note_by_id (note_id : Nat) (user : User) (db : List Note) :
    Option Note :=
  db.find? (fun n =>
    n.id == note_id &&
      (match user.role with
       | UserRole.AGENT => n.owner_id == user.id
       | UserRole.ADMIN => true))

/-- repository.py `update_note_status`: load the row by id; if absent
return `None` leaving the table unchanged; otherwise always write `status`,
and overwrite `summary` / `job_id` only when the argument is truthy
(non-`None` and non-empty). -/
def update_note_status (note_id : Nat) (status : NoteStatus)
    (summary : Option String) (job_id : Option String) (db : List Note) :
    Option Note × List Note :=
  match db.find? (fun n => n.id == note_id) with
  | none => (none, db)
  | some note =>
    let note' : Note :=
      { note with
        status := status,
        summary := if pyTruthy summary then summary else note.summary,
        job_id := if pyTruthy job_id then job_id else note.job_id }
    (some note', replaceFirst note_id note' db)

/-- repository.py `get_notes`: role scoping, optional filters, newest-first
order; with pagination the page window is applied and the total is the full
filtered count (`paginate_query`), without it all rows are returned and the
total is their number. -/
def get_notes (user : User) (pagination : Option PaginationParams)
    (filters : Option NoteFilters) (db : List Note) : List Note × Nat :=
  let scopedRows :=
    match user.role with
    | UserRole.AGENT => db.filter (fun n => n.owner_id == user.id)
    | UserRole.ADMIN => db
  let filtered :=
    match filters with
    | some f => scopedRows.filter (apply_note_filters f)
    | none => scopedRows
  let ordered := orderByCreatedDesc filtered
  match pagination with
  | some p => ((ordered.drop p.offset.toNat).take p.size.toNat, filtered.length)
  | none => (ordered, ordered.length)

end NoteRepository

/-- The caller-visible error signals raised by the service
(app/common/exceptions.py: `NoteNotFoundError` is 404,
`ServiceUnavailableError` is 503). -/
inductive ApiError
  | noteNotFound
  | serviceUnavailable
deriving DecidableEq

/-- Outcome of the RQ `queue.enqueue` call in `NoteService.create_note`:
success with the returned job id, a `redis.ConnectionError`, or any other
exception. -/
inductive QueueOutcome
  | ok (jobId : String)
  | connError
  | otherError
deriving DecidableEq

namespace NoteService

/-- service.py `create_note` (lines 35-84).  `q` is the outcome of the
enqueue attempt; `updateThrows` injects an Entity-Store failure into every
`update_note_status` call made after the insert (the store's write raises).

* enqueue ok: record the job id via
  `update_note_status(note.id, note.status, job_id=job.id)`; if that write
  raises, the generic `except` catches it, its own recovery write raises
  too and is swallowed, and the created note is returned.
* `redis.ConnectionError`: best-effort `update_note_status(id, failed)`
  (failure swallowed by `except: pass`), then `ServiceUnavailableError` is
  raised to the caller.
* any other exception: best-effort `update_note_status(id, failed)`
  (failure swallowed and logged), and the note is returned normally.

The returned note is the ORM object created at step 1, which by session
identity reflects any committed update; `NoteResponse.model_validate` is a
field-preserving projection and is not modelled separately. -/
def create_note (db : List Note) (raw_text : String) (uid : Nat) (now : Nat)
    (q : QueueOutcome) (updateThrows : Bool) :
    Except ApiError Note × List Note :=
  let (note, db1) := NoteRepository.create_note raw_text uid now db
  match q with
  | QueueOutcome.ok jobId =>
    if updateThrows then
      (Except.ok note, db1)
    else
      let (r, db2) :=
        NoteRepository.update_note_status note.id note.status none
          (some jobId) db1
      (Except.ok (r.getD note), db2)
  | QueueOutcome.connError =>
    if updateThrows then
      (Except.error ApiError.serviceUnavailable, db1)
    else
      let (_, db2) :=
        NoteRepository.update_note_status note.id NoteStatus.failed none
          none db1
      (Except.error ApiError.serviceUnavailable, db2)
  | QueueOutcome.otherError =>
    if updateThrows then
      (Except.ok note, db1)
    else
      let (r, db2) :=
        NoteRepository.update_note_status note.id NoteStatus.failed none
          none db1
      (Except.ok (r.getD note), db2)

/-- service.py `get_note`: delegate to the scoped repository read and raise
`NoteNotFoundError` on `None`. -/
def get_note (note_id : Nat) (user : User) (db : List Note) :
    Except ApiError Note :=
  match NoteRepository.get_note_by_id note_id user db with
  | none => Except.error ApiError.noteNotFound
  | some n => Except.ok n

/-- service.py `get_notes`: with pagination, wrap via
`create_paginated_response`; without it, a single page with `page = 1`,
`size = total`, `pages = 1`. -/
def get_notes (user : User) (pagination : Option PaginationParams)
    (filters : Option NoteFilters) (db : List Note) : PaginatedResponse :=
  let (notes, total) := NoteRepository.get_notes user pagination filters db
  match pagination with
  | some p => create_paginated_response notes total p
  | none =>
    { items := notes, total := total, page := 1, size := (total : Int),
      pages := 1 }

end NoteService

/-- tasks.py lines 163-172, the `except` branch of `summarize_note_task`:
re-load the note, force status `failed` if it is still present; if the
recovery write itself raises (`recoveryThrows`) the failure is swallowed
and the table is left as it was. -/
def summarize_note_recover (db : List Note) (note_id : Nat)
    (recoveryThrows : Bool) : List Note :=
  if recoveryThrows then db
  else
    match db.find? (fun n => n.id == note_id) with
    | some note => replaceFirst note_id { note with status := NoteStatus.failed } db
    | none => db

/-- tasks.py `summarize_note_task` (lines 120-174).  `summaryFn` abstracts
`generate_t5_summary` (whose deterministic fallback is
`generate_t5_summary_fallback`); `doneCommitThrows` injects an exception at
the final commit of step 4 (after the processing commit and the summary
computation); `deletedBeforeRecovery` models a concurrent hard delete of
the row between that exception and the recovery re-load.  Absent note: log
and return.  Success: one commit for `processing`, then one commit writing
`summary` and `done`. -/
def summarize_note_task (db : List Note) (note_id : Nat)
    (summaryFn : String → String) (doneCommitThrows : Bool)
    (deletedBeforeRecovery : Bool) (recoveryThrows : Bool) : List Note :=
  match db.find? (fun n => n.id == note_id) with
  | none => db
  | some note =>
    let db1 := replaceFirst note_id { note with status := NoteStatus.processing } db
    let s := summaryFn note.raw_text
    if doneCommitThrows then
      let dbR :=
        if deletedBeforeRecovery then db1.filter (fun n => !(n.id == note_id))
        else db1
      summarize_note_recover dbR note_id recoveryThrows
    else
      replaceFirst note_id
        { note with status := NoteStatus.done, summary := some s } db1

end NoteApp

/-! ## Helper lemmas -/

namespace NoteApp

theorem isEmpty_false_iff (s : String) : s.isEmpty = false ↔ s ≠ "" := by
  rw [Bool.eq_false_iff]
  exact not_congr (String.isEmpty_iff s)

@[simp] theorem pyTruthy_none : pyTruthy none = false := rfl

theorem pyTruthy_some_iff (s : String) : pyTruthy (some s) = true ↔ s ≠ "" := by
  simp only [pyTruthy, Bool.not_eq_true']
  exact isEmpty_false_iff s

theorem find?_replaceFirst_eq {nid : Nat} {x : Note} {db : List Note}
    (hx : x.id = nid) (h : (db.find? (fun n => n.id == nid)).isSome) :
    (replaceFirst nid x db).find? (fun n => n.id == nid) = some x := by
  induction db with
  | nil => simp [List.find?] at h
  | cons n ns ih =>
    by_cases hn : (n.id == nid) = true
    · simp only [replaceFirst, hn, if_true]
      exact List.find?_cons_of_pos _ (by simp [hx])
    · simp only [replaceFirst, hn, if_false, Bool.false_eq_true]
      rw [List.find?_cons_of_neg _ (by simp [hn])]
      apply ih
      rwa [List.find?_cons_of_neg _ (by simp [hn])] at h

theorem mem_insertByCreatedDesc {a n : Note} {l : List Note} :
    a ∈ insertByCreatedDesc n l ↔ a = n ∨ a ∈ l := by
  induction l with
  | nil => simp [insertByCreatedDesc]
  | cons m ms ih =>
    simp only [insertByCreatedDesc]
    split
    · simp [List.mem_cons]
    · simp only [List.mem_cons, ih]
      tauto

theorem mem_orderByCreatedDesc {a : Note} {l : List Note} :
    a ∈ orderByCreatedDesc l ↔ a ∈ l := by
  induction l with
  | nil => simp [orderByCreatedDesc]
  | cons m ms ih =>
    show a ∈ insertByCreatedDesc m (orderByCreatedDesc ms) ↔ _
    rw [mem_insertByCreatedDesc]
    simp only [List.mem_cons, ih]

end NoteApp

/-! ## Claim theorems -/

namespace NoteApp

/-- Claim C1: when the enqueue raises a connectivity-class error
(`redis.ConnectionError`), `create_note` raises the service-unavailable
signal to the caller in every bookkeeping mode; with the store's
status-update write succeeding, the persisted note's status is `failed`;
and in every mode the note itself is still present in the store (not
lost). -/
theorem create_note_conn_error_failed (db : List Note) (raw : String)
    (uid now : Nat) :
    (∀ ut, (NoteService.create_note db raw uid now QueueOutcome.connError ut).1
        = Except.error ApiError.serviceUnavailable)
    ∧ ((NoteService.create_note db raw uid now QueueOutcome.connError false).2.find?
        (fun n => n.id == nextId db)).map Note.status = some NoteStatus.failed
    ∧ (∀ ut, ((NoteService.create_note db raw uid now QueueOutcome.connError ut).2.find?
        (fun n => n.id == nextId db)).isSome = true) := by
  refine ⟨fun ut => by cases ut <;> rfl, ?_, fun ut => ?_⟩
  · simp [NoteService.create_note, NoteRepository.create_note,
      NoteRepository.update_note_status, replaceFirst, pyTruthy,
      List.find?_cons_of_pos]
  · cases ut <;>
      simp [NoteService.create_note, NoteRepository.create_note,
        NoteRepository.update_note_status, replaceFirst, pyTruthy,
        List.find?_cons_of_pos]


/-- Evaluation of `create_note` in the normal bookkeeping mode after a
non-connectivity enqueue failure: the freshly inserted row is re-loaded and
forced to `failed`, and that row is returned. -/
theorem create_note_other_false_eval (db : List Note) (raw : String)
    (uid now : Nat) :
    NoteService.create_note db raw uid now QueueOutcome.otherError false
      = (Except.ok
          { id := nextId db, raw_text := raw, summary := none,
            status := NoteStatus.failed, job_id := none, owner_id := uid,
            created_at := now },
         { id := nextId db, raw_text := raw, summary := none,
           status := NoteStatus.failed, job_id := none, owner_id := uid,
           created_at := now } :: db) := by
  simp only [NoteService.create_note, NoteRepository.create_note,
    NoteRepository.update_note_status]
  rw [List.find?_cons_of_pos _ (by simp)]
  simp [replaceFirst, pyTruthy]

/-- Evaluation of `create_note` in the normal bookkeeping mode after a
connectivity enqueue failure: the row is forced to `failed` and the
service-unavailable error is raised. -/
theorem create_note_conn_false_eval (db : List Note) (raw : String)
    (uid now : Nat) :
    NoteService.create_note db raw uid now QueueOutcome.connError false
      = (Except.error ApiError.serviceUnavailable,
         { id := nextId db, raw_text := raw, summary := none,
           status := NoteStatus.failed, job_id := none, owner_id := uid,
           created_at := now } :: db) := by
  simp only [NoteService.create_note, NoteRepository.create_note,
    NoteRepository.update_note_status]
  rw [List.find?_cons_of_pos _ (by simp)]
  simp [replaceFirst, pyTruthy]

/-- Evaluation of `create_note` in the normal bookkeeping mode after a
successful enqueue with a truthy job id: the job id is recorded, the status
stays `queued`, and the recorded row is returned. -/
theorem create_note_ok_false_eval (db : List Note) (raw : String)
    (uid now : Nat) (jobId : String) (h : pyTruthy (some jobId) = true) :
    NoteService.create_note db raw uid now (QueueOutcome.ok jobId) false
      = (Except.ok
          { id := nextId db, raw_text := raw, summary := none,
            status := NoteStatus.queued, job_id := some jobId,
            owner_id := uid, created_at := now },
         { id := nextId db, raw_text := raw, summary := none,
           status := NoteStatus.queued, job_id := some jobId,
           owner_id := uid, created_at := now } :: db) := by
  simp only [NoteService.create_note, NoteRepository.create_note,
    NoteRepository.update_note_status]
  rw [List.find?_cons_of_pos _ (by simp)]
  simp [replaceFirst, h]

/-- Claim C2: when the enqueue raises any non-connectivity error,
`create_note` returns normally in every bookkeeping mode (no exception
reaches the caller); with the status-update write succeeding, the
persisted and the returned note carry status `failed`; and when that
secondary write itself fails, the failure is swallowed and the freshly
created note (still persisted) is returned. -/
theorem create_note_other_error_swallowed (db : List Note) (raw : String)
    (uid now : Nat) :
    (∀ ut, (NoteService.create_note db raw uid now QueueOutcome.otherError ut).1.isOk
        = true)
    ∧ ((NoteService.create_note db raw uid now QueueOutcome.otherError false).2.find?
        (fun n => n.id == nextId db)).map Note.status = some NoteStatus.failed
    ∧ (∃ n, (NoteService.create_note db raw uid now QueueOutcome.otherError false).1
          = Except.ok n ∧ n.status = NoteStatus.failed)
    ∧ (∃ n, (NoteService.create_note db raw uid now QueueOutcome.otherError true).1
          = Except.ok n
        ∧ n.id = nextId db ∧ n.raw_text = raw ∧ n.owner_id = uid
        ∧ (NoteService.create_note db raw uid now QueueOutcome.otherError true).2
            = n :: db) := by
  refine ⟨fun ut => by cases ut <;> rfl, ?_, ?_, ?_⟩
  · rw [create_note_other_false_eval]
    simp [List.find?_cons_of_pos]
  · rw [create_note_other_false_eval]
    exact ⟨_, rfl, rfl⟩
  · exact ⟨_, rfl, rfl, rfl, rfl, rfl⟩

/-- Claim C4: when the enqueue succeeds returning a (nonempty) job
identifier, the persisted note's `job_id` equals that identifier, its
status remains `queued`, and that same note is what the caller receives. -/
theorem create_note_enqueue_ok_records_job_id (db : List Note) (raw : String)
    (uid now : Nat) (jobId : String) (h : jobId ≠ "") :
    ∃ n, (NoteService.create_note db raw uid now (QueueOutcome.ok jobId) false).2.find?
          (fun m => m.id == nextId db) = some n
      ∧ n.job_id = some jobId ∧ n.status = NoteStatus.queued
      ∧ (NoteService.create_note db raw uid now (QueueOutcome.ok jobId) false).1
          = Except.ok n := by
  rw [create_note_ok_false_eval db raw uid now jobId ((pyTruthy_some_iff jobId).mpr h)]
  exact ⟨_, List.find?_cons_of_pos _ (by simp), rfl, rfl, rfl⟩

/-- Witness for C4: a concrete creation against an empty store with job id
"rq-42". -/
theorem create_note_enqueue_ok_records_job_id_witness :
    ∃ n, (NoteService.create_note [] "buy milk" 5 3 (QueueOutcome.ok "rq-42") false).2.find?
          (fun m => m.id == nextId []) = some n
      ∧ n.job_id = some "rq-42" ∧ n.status = NoteStatus.queued
      ∧ (NoteService.create_note [] "buy milk" 5 3 (QueueOutcome.ok "rq-42") false).1
          = Except.ok n :=
  create_note_enqueue_ok_records_job_id [] "buy milk" 5 3 "rq-42" (by decide)

/-- Claim C5: whatever the queue outcome and bookkeeping mode, whenever
`create_note` returns a note, the returned note's status is `queued` or
`failed`, never `processing` or `done`. -/
theorem create_note_returns_queued_or_failed (db : List Note) (raw : String)
    (uid now : Nat) (q : QueueOutcome) (ut : Bool) (n : Note)
    (h : (NoteService.create_note db raw uid now q ut).1 = Except.ok n) :
    n.status = NoteStatus.queued ∨ n.status = NoteStatus.failed := by
  cases q with
  | ok jobId =>
    cases ut with
    | false =>
      by_cases hj : pyTruthy (some jobId) = true
      · rw [create_note_ok_false_eval db raw uid now jobId hj] at h
        cases h
        exact Or.inl rfl
      · left
        simp only [NoteService.create_note, NoteRepository.create_note,
          NoteRepository.update_note_status, Bool.false_eq_true, if_false] at h
        rw [List.find?_cons_of_pos _ (by simp)] at h
        simp only [eq_false_of_ne_true hj, Bool.false_eq_true, if_false,
          Option.getD_some, Except.ok.injEq] at h
        rw [← h]
    | true =>
      cases h
      exact Or.inl rfl
  | connError =>
    cases ut with
    | false => rw [create_note_conn_false_eval] at h; cases h
    | true => cases h
  | otherError =>
    cases ut with
    | false =>
      rw [create_note_other_false_eval] at h
      cases h
      exact Or.inr rfl
    | true =>
      cases h
      exact Or.inl rfl

/-- Witness for C5: a concrete successful creation returns a note whose
status is `queued`. -/
theorem create_note_returns_queued_or_failed_witness :
    (NoteService.create_note [] "t" 1 0 (QueueOutcome.ok "j") false).1
        = Except.ok
            { id := 1, raw_text := "t", summary := none,
              status := NoteStatus.queued, job_id := some "j", owner_id := 1,
              created_at := 0 }
    ∧ (({ id := 1, raw_text := "t", summary := none,
          status := NoteStatus.queued, job_id := some "j", owner_id := 1,
          created_at := 0 } : Note).status = NoteStatus.queued
      ∨ ({ id := 1, raw_text := "t", summary := none,
           status := NoteStatus.queued, job_id := some "j", owner_id := 1,
           created_at := 0 } : Note).status = NoteStatus.failed) :=
  ⟨rfl,
   create_note_returns_queued_or_failed [] "t" 1 0 (QueueOutcome.ok "j") false
     { id := 1, raw_text := "t", summary := none, status := NoteStatus.queued,
       job_id := some "j", owner_id := 1, created_at := 0 } rfl⟩

end NoteApp

namespace NoteApp

/-- Claim C3 (refuted — code bug): the spec, the API's own description in
`app/main.py` ("Priority: contains important or urgent; Meeting: contains
meeting; General: default") and the example in `app/notes/schema.py`
("Priority summary: ...") all describe a keyword content-classification
rule, but the worker in `app/notes/tasks.py` implements no such rule: it
calls a T5 model, and its only deterministic path — the fallback taken when
the model is unavailable or generation fails — is plain truncation.  A raw
text containing "urgent" (or "meeting") is returned verbatim, with no
priority-style or meeting-style summary; the worker then persists that
verbatim text as the summary with status `done`. -/
theorem worker_summary_no_keyword_classification :
    ci_contains "please fix this urgent issue" "urgent" = true
    ∧ generate_t5_summary_fallback "please fix this urgent issue"
        = "please fix this urgent issue"
    ∧ ci_contains "notes from the meeting" "meeting" = true
    ∧ generate_t5_summary_fallback "notes from the meeting"
        = "notes from the meeting"
    ∧ generate_t5_summary_fallback "plain text" = "plain text"
    ∧ summarize_note_task
        [{ id := 1, raw_text := "please fix this urgent issue",
           summary := none, status := NoteStatus.queued, job_id := none,
           owner_id := 7, created_at := 0 }]
        1 generate_t5_summary_fallback false false false
      = [{ id := 1, raw_text := "please fix this urgent issue",
           summary := some "please fix this urgent issue",
           status := NoteStatus.done, job_id := none, owner_id := 7,
           created_at := 0 }] := by
  refine ⟨?_, ?_, ?_, ?_, ?_, ?_⟩ <;> decide

/-- Claim C6: for an AGENT, `get_note` answers with the same not-found
error both when no note has the requested id and when the note exists but
is owned by someone else (the two outcomes are the identical value, so the
caller cannot distinguish them); for an ADMIN the query is unscoped and any
stored note is returned. -/
theorem get_note_access_control (db : List Note) (nid : Nat)
    (agent admin : User) :
    ((∀ m ∈ db, m.id ≠ nid) →
      ∀ u : User, NoteService.get_note nid u db
        = Except.error ApiError.noteNotFound)
    ∧ (agent.role = UserRole.AGENT →
      (∀ m ∈ db, m.id = nid → m.owner_id ≠ agent.id) →
      NoteService.get_note nid agent db = Except.error ApiError.noteNotFound)
    ∧ (admin.role = UserRole.ADMIN →
      ∀ n, db.find? (fun m => m.id == nid) = some n →
      NoteService.get_note nid admin db = Except.ok n) := by
  refine ⟨?_, ?_, ?_⟩
  · intro hno u
    have hnone : NoteRepository.get_note_by_id nid u db = none := by
      apply List.find?_eq_none.mpr
      intro x hx hc
      rw [Bool.and_eq_true] at hc
      exact hno x hx (by simpa using hc.1)
    simp [NoteService.get_note, hnone]
  · intro hrole hmine
    have hnone : NoteRepository.get_note_by_id nid agent db = none := by
      apply List.find?_eq_none.mpr
      intro x hx hc
      rw [hrole, Bool.and_eq_true] at hc
      exact hmine x hx (by simpa using hc.1) (by simpa using hc.2)
    simp [NoteService.get_note, hnone]
  · intro hrole n hfind
    have hsome : NoteRepository.get_note_by_id nid admin db = some n := by
      unfold NoteRepository.get_note_by_id
      rw [hrole]
      simpa using hfind
    simp [NoteService.get_note, hsome]

/-- Witness for C6 on a one-note store owned by user 5: a foreign AGENT
gets not-found on the existing id 1 and on the absent id 2 — the same
value — while an ADMIN retrieves the note. -/
theorem get_note_access_control_witness :
    NoteService.get_note 1 { id := 7, role := UserRole.AGENT }
        [{ id := 1, raw_text := "x", summary := none,
           status := NoteStatus.queued, job_id := none, owner_id := 5,
           created_at := 0 }]
      = Except.error ApiError.noteNotFound
    ∧ NoteService.get_note 2 { id := 7, role := UserRole.AGENT }
        [{ id := 1, raw_text := "x", summary := none,
           status := NoteStatus.queued, job_id := none, owner_id := 5,
           created_at := 0 }]
      = Except.error ApiError.noteNotFound
    ∧ NoteService.get_note 1 { id := 9, role := UserRole.ADMIN }
        [{ id := 1, raw_text := "x", summary := none,
           status := NoteStatus.queued, job_id := none, owner_id := 5,
           created_at := 0 }]
      = Except.ok
          { id := 1, raw_text := "x", summary := none,
            status := NoteStatus.queued, job_id := none, owner_id := 5,
            created_at := 0 } := by
  refine ⟨?_, ?_, ?_⟩
  · exact (get_note_access_control _ 1 { id := 7, role := UserRole.AGENT }
      { id := 9, role := UserRole.ADMIN }).2.1 rfl (by decide)
  · exact (get_note_access_control _ 2 { id := 7, role := UserRole.AGENT }
      { id := 9, role := UserRole.ADMIN }).1 (by decide) _
  · exact (get_note_access_control _ 1 { id := 7, role := UserRole.AGENT }
      { id := 9, role := UserRole.ADMIN }).2.2 rfl _ (by decide)

end NoteApp

namespace NoteApp

theorem pyTruthy_some_empty : pyTruthy (some "") = false := by decide

/-- Claim C7: when an exception hits the worker after the note was loaded
(modelled at the final commit), the recovery path re-loads the note: if it
is still present and the recovery write succeeds, its status is forced to
`failed`; if a concurrent delete removed it, nothing is written (the store
stays exactly as it was when the exception fired); and if the recovery
write itself raises, the failure is swallowed and the store is likewise
left unchanged — in every case `summarize_note_task` returns instead of
propagating an exception. -/
theorem worker_failure_recovery (db : List Note) (nid : Nat)
    (f : String → String) (cd rt : Bool) (note : Note)
    (hfind : db.find? (fun n => n.id == nid) = some note) :
    (cd = false → rt = false →
      ((summarize_note_task db nid f true cd rt).find?
          (fun n => n.id == nid)).map Note.status = some NoteStatus.failed)
    ∧ (cd = true →
      summarize_note_task db nid f true cd rt
        = (replaceFirst nid { note with status := NoteStatus.processing } db).filter
            (fun n => !(n.id == nid)))
    ∧ (cd = false → rt = true →
      summarize_note_task db nid f true cd rt
        = replaceFirst nid { note with status := NoteStatus.processing } db) := by
  have hid : note.id = nid := by
    have h := List.find?_some hfind
    simpa using h
  have hproc : (replaceFirst nid { note with status := NoteStatus.processing } db).find?
      (fun n => n.id == nid) = some { note with status := NoteStatus.processing } :=
    find?_replaceFirst_eq hid (by rw [hfind]; rfl)
  refine ⟨?_, ?_, ?_⟩
  · rintro rfl rfl
    simp only [summarize_note_task, hfind, if_true, Bool.false_eq_true,
      if_false, summarize_note_recover, hproc]
    rw [@find?_replaceFirst_eq nid { note with status := NoteStatus.failed }
      (replaceFirst nid { note with status := NoteStatus.processing } db)
      hid (by rw [hproc]; rfl)]
    rfl
  · rintro rfl
    have hnone : ((replaceFirst nid { note with status := NoteStatus.processing } db).filter
        (fun n => !(n.id == nid))).find? (fun n => n.id == nid) = none := by
      apply List.find?_eq_none.mpr
      intro x hx
      rw [List.mem_filter] at hx
      simpa using hx.2
    simp only [summarize_note_task, hfind, if_true, summarize_note_recover,
      hnone]
    cases rt <;> simp
  · rintro rfl rfl
    simp [summarize_note_task, hfind, summarize_note_recover]

/-- Witness for C7 on a one-note store: with the final commit raising and
the recovery write succeeding, the note ends in status `failed`. -/
theorem worker_failure_recovery_witness :
    ((summarize_note_task
        [{ id := 1, raw_text := "x", summary := none,
           status := NoteStatus.queued, job_id := none, owner_id := 7,
           created_at := 0 }]
        1 generate_t5_summary_fallback true false false).find?
          (fun n => n.id == 1)).map Note.status = some NoteStatus.failed :=
  (worker_failure_recovery
      [{ id := 1, raw_text := "x", summary := none,
         status := NoteStatus.queued, job_id := none, owner_id := 7,
         created_at := 0 }]
      1 generate_t5_summary_fallback false false
      { id := 1, raw_text := "x", summary := none,
        status := NoteStatus.queued, job_id := none, owner_id := 7,
        created_at := 0 } rfl).1 rfl rfl

/-- Claim C8: `update_note_status` on an existing note always writes the
status argument, overwrites `summary` / `job_id` only when the argument is
a nonempty string (absent or empty leaves the stored value unchanged),
leaves `raw_text`, `owner_id`, `created_at` and `id` untouched, and only
replaces that one row; on a missing id it returns not-found and leaves the
store unchanged. -/
theorem update_note_status_partial_update (db : List Note) (nid : Nat)
    (st : NoteStatus) (sm jb : Option String) :
    (db.find? (fun n => n.id == nid) = none →
      NoteRepository.update_note_status nid st sm jb db = (none, db))
    ∧ (∀ note, db.find? (fun n => n.id == nid) = some note →
      ∃ note',
        NoteRepository.update_note_status nid st sm jb db
            = (some note', replaceFirst nid note' db)
        ∧ note'.status = st
        ∧ (∀ s, sm = some s → s ≠ "" → note'.summary = some s)
        ∧ (sm = none → note'.summary = note.summary)
        ∧ (sm = some "" → note'.summary = note.summary)
        ∧ (∀ s, jb = some s → s ≠ "" → note'.job_id = some s)
        ∧ (jb = none → note'.job_id = note.job_id)
        ∧ (jb = some "" → note'.job_id = note.job_id)
        ∧ note'.raw_text = note.raw_text
        ∧ note'.owner_id = note.owner_id
        ∧ note'.created_at = note.created_at
        ∧ note'.id = note.id) := by
  constructor
  · intro h
    simp [NoteRepository.update_note_status, h]
  · intro note h
    refine ⟨{ note with
              status := st
              summary := if pyTruthy sm then sm else note.summary
              job_id := if pyTruthy jb then jb else note.job_id },
      by simp [NoteRepository.update_note_status, h], rfl,
      ?_, ?_, ?_, ?_, ?_, ?_, rfl, rfl, rfl, rfl⟩
    · rintro s rfl hs
      simp [(pyTruthy_some_iff s).mpr hs]
    · rintro rfl
      simp
    · rintro rfl
      simp [pyTruthy_some_empty]
    · rintro s rfl hs
      simp [(pyTruthy_some_iff s).mpr hs]
    · rintro rfl
      simp
    · rintro rfl
      simp [pyTruthy_some_empty]

/-- Witness for C8: updating a stored note with a nonempty summary and an
empty job id writes the status and the summary but keeps the old job id. -/
theorem update_note_status_partial_update_witness :
    ∃ note',
      NoteRepository.update_note_status 1 NoteStatus.done (some "new") (some "")
          [{ id := 1, raw_text := "x", summary := some "old",
             status := NoteStatus.queued, job_id := some "rq-7", owner_id := 2,
             created_at := 0 }]
        = (some note', replaceFirst 1 note'
            [{ id := 1, raw_text := "x", summary := some "old",
               status := NoteStatus.queued, job_id := some "rq-7", owner_id := 2,
               created_at := 0 }])
      ∧ note'.status = NoteStatus.done
      ∧ note'.summary = some "new"
      ∧ note'.job_id = some "rq-7" := by
  obtain ⟨n', he, hst, hsm, _, _, _, _, hjbe, _, _, _, _⟩ :=
    (update_note_status_partial_update
        [{ id := 1, raw_text := "x", summary := some "old",
           status := NoteStatus.queued, job_id := some "rq-7", owner_id := 2,
           created_at := 0 }] 1 NoteStatus.done (some "new") (some "")).2
      { id := 1, raw_text := "x", summary := some "old",
        status := NoteStatus.queued, job_id := some "rq-7", owner_id := 2,
        created_at := 0 } rfl
  exact ⟨n', he, hst, hsm "new" rfl (by decide), hjbe rfl⟩

end NoteApp

namespace NoteApp

/-- Role-based visibility of a note: ADMIN sees every note, AGENT only
notes it owns (models.py / repository scoping). -/
def visible_to (user : User) (n : Note) : Bool :=
  match user.role with
  | UserRole.ADMIN => true
  | UserRole.AGENT => n.owner_id == user.id

/-- Whether a note passes the optional filter set (absent filters match
everything). -/
def matches_filters (filters : Option NoteFilters) (n : Note) : Bool :=
  match filters with
  | some f => apply_note_filters f n
  | none => true

/-- Claim C9: `get_notes` without pagination returns every matching note
(role-visible and filter-matching rows of the store, no more, no less) as a
single page reporting page number 1, page-size equal to the total count,
and a total equal to the number of items returned. -/
theorem get_notes_no_pagination_single_page (db : List Note) (user : User)
    (filters : Option NoteFilters) :
    (NoteService.get_notes user none filters db).page = 1
    ∧ (NoteService.get_notes user none filters db).pages = 1
    ∧ (NoteService.get_notes user none filters db).size
        = ((NoteService.get_notes user none filters db).total : Int)
    ∧ (NoteService.get_notes user none filters db).total
        = (NoteService.get_notes user none filters db).items.length
    ∧ ∀ n, n ∈ (NoteService.get_notes user none filters db).items
        ↔ n ∈ db ∧ visible_to user n = true ∧ matches_filters filters n = true := by
  refine ⟨rfl, rfl, rfl, rfl, fun n => ?_⟩
  obtain ⟨uid, role⟩ := user
  cases role <;> cases filters <;>
    simp [NoteService.get_notes, NoteRepository.get_notes,
      mem_orderByCreatedDesc, List.mem_filter, visible_to, matches_filters,
      and_assoc, and_left_comm, and_comm]

/-- Claim C10: a pagination parameter object accepted by the field
validation has page ≥ 1 and size between 1 and 100 (a cap the validation
enforces though the spec leaves it unstated), so the computed offset
`(page - 1) * size` is never negative. -/
theorem pagination_params_offset_nonneg (page size : Int)
    (p : PaginationParams) (h : PaginationParams.validate page size = some p) :
    1 ≤ p.page ∧ 1 ≤ p.size ∧ p.size ≤ 100 ∧ 0 ≤ p.offset := by
  unfold PaginationParams.validate at h
  split at h
  · rename_i hc
    cases h
    obtain ⟨h1, h2, h3⟩ := hc
    refine ⟨h1, h2, h3, ?_⟩
    have hp : (0 : Int) ≤ page - 1 := by linarith
    have hs : (0 : Int) ≤ size := by linarith
    exact mul_nonneg hp hs
  · exact absurd h (by simp)

/-- Witness for C10 at page 2, size 10: the validated object has offset
(2 - 1) * 10 = 10 ≥ 0. -/
theorem pagination_params_offset_nonneg_witness :
    PaginationParams.validate 2 10 = some { page := 2, size := 10 }
    ∧ (0 : Int) ≤ PaginationParams.offset { page := 2, size := 10 } :=
  ⟨by decide,
   (pagination_params_offset_nonneg 2 10 { page := 2, size := 10 }
     (by decide)).2.2.2⟩

end NoteApp
